import Mathlib

set_option maxRecDepth 100000

/-!
Shallow embedding of the `tb-rs` TigerBeetle client library.

Bytes are modelled as `Nat` (values taken mod 256 where the source reads
them as `u8`); machine-integer casts from the source are modelled with
explicit `% 2^w`.  Fallible paths return `Except`/`Option`; a Rust panic
(failed `assert!` or out-of-bounds slice) is modelled by an outer `Option`
returning `none`.

The AEGIS-128L MAC (`protocol/checksum.rs`) is kept as an explicit function
parameter `chk : List Nat → Nat` of every definition that computes or
verifies a checksum: the client's control flow treats the MAC as an opaque
128-bit tag, so every theorem below is proved for an arbitrary tag function
(and hence in particular for the real one).
-/

namespace TB

/-- `2^32`, the modulus of Rust `u32` arithmetic and `as u32` casts. -/
def U32 : Nat := 2 ^ 32

/-- Little-endian byte encoding: `w` bytes of `v` (i.e. of `v % 2^(8*w)`). -/
def le : Nat → Nat → List Nat
  | 0, _ => []
  | w + 1, v => v % 256 :: le w (v / 256)

/-- Little-endian byte decoding (each byte taken mod 256, as Rust `u8`). -/
def bytesToNat : List Nat → Nat
  | [] => 0
  | b :: rest => b % 256 + 256 * bytesToNat rest

/-- Read a `w`-byte little-endian field at byte offset `off`. -/
def readLE (buf : List Nat) (off w : Nat) : Nat :=
  bytesToNat ((buf.drop off).take w)

/-- Overwrite the `w` bytes at offset `off` with the LE encoding of `v`. -/
def writeLE (buf : List Nat) (off w v : Nat) : List Nat :=
  buf.take off ++ le w v ++ buf.drop (off + w)

/-! ## `protocol/multi_batch.rs` -/

/-- `multi_batch::trailer_total_size`.  The source `assert!(batch_count > 0)`
panic is modelled as `none`. -/
def trailer_total_size (element_size batch_count : Nat) : Option Nat :=
  if batch_count = 0 then none
  else
    let trailer_unpadded_size := batch_count * 2 + 2
    if element_size = 0 then some trailer_unpadded_size
    else some ((trailer_unpadded_size + element_size - 1) / element_size * element_size)

/-- `multi_batch::encode`.  Returns the updated buffer together with the
total encoded size; `none` models a panic (buffer-size assert, `u32`
overflow of `events_len + trailer_size`, or a `usize`/`u32` cast mismatch
on slices longer than `2^32`).  The net effect of the source's byte writes
(payload copy, `0xFF` trailer fill, then the two little-endian `u16`
postamble fields) is the appended layout below. -/
def encode (buffer events : List Nat) (element_size : Nat) : Option (List Nat × Nat) :=
  let events_len := events.length % U32
  let element_count := if element_size = 0 then 0 else events_len / element_size % 2 ^ 16
  let batch_count := 1
  match trailer_total_size element_size batch_count with
  | none => none
  | some trailer_size =>
    if events.length ≠ events_len then none
    else if events_len + trailer_size ≥ U32 then none
    else
      let total_size := events_len + trailer_size
      if buffer.length % U32 < total_size then none
      else
        some (events ++ List.replicate (trailer_size - 4) 255 ++
                le 2 element_count ++ le 2 batch_count ++ buffer.drop total_size,
              total_size)

/-- `multi_batch::decode`.  `none` models a panic; the claim that the
`trailer_total_size` assert is unreachable from `decode` is exactly the
statement that `decode` never returns `none`. -/
def decode (data : List Nat) (element_size : Nat) : Option (List Nat) :=
  let data_len := data.length % U32
  if data_len < 2 then some []
  else
    let batch_count := data.getD (data_len - 2) 0 % 256 + 256 * (data.getD (data_len - 1) 0 % 256)
    if batch_count = 0 then some []
    else
      match trailer_total_size element_size batch_count with
      | none => none
      | some trailer_size =>
        if data_len < trailer_size then some []
        else some (data.take (data_len - trailer_size))

/-! ## `internal/buffer.rs` -/

/-- `internal::buffer::OwnedBuf` (the stable heap address itself is not
modelled, only the buffer's contents and flags). -/
structure OwnedBuf where
  data : List Nat
  len : Nat
  poisoned : Bool
deriving DecidableEq, Repr

/-- `OwnedBuf::with_capacity`. -/
def OwnedBuf.with_capacity (capacity : Nat) : OwnedBuf :=
  { data := List.replicate capacity 0, len := 0, poisoned := false }

/-- `OwnedBuf::reset`. -/
def OwnedBuf.reset (b : OwnedBuf) : OwnedBuf :=
  { b with len := 0, poisoned := false }

/-- `internal::buffer::BufferPool`.  `available` is a Rust `Vec`
(push/pop at the back); `quarantine` is a `VecDeque` whose front is the
list head. -/
structure BufferPool where
  available : List OwnedBuf
  quarantine : List OwnedBuf
  buffer_size : Nat
deriving DecidableEq, Repr

/-- `BufferPool::new`. -/
def BufferPool.new (count buffer_size : Nat) : BufferPool :=
  { available := List.replicate count (OwnedBuf.with_capacity buffer_size),
    quarantine := [], buffer_size := buffer_size }

/-- `BufferPool::acquire`: pop from `available` (Vec pop = last element),
otherwise pop the front of the quarantine, otherwise allocate fresh. -/
def BufferPool.acquire (p : BufferPool) : Option (OwnedBuf × BufferPool) :=
  match p.available.getLast? with
  | some buf => some (buf.reset, { p with available := p.available.dropLast })
  | none =>
    match p.quarantine with
    | buf :: rest => some (buf.reset, { p with quarantine := rest })
    | [] => some (OwnedBuf.with_capacity p.buffer_size, p)

/-- `BufferPool::release`. -/
def BufferPool.release (p : BufferPool) (buf : OwnedBuf) : BufferPool :=
  if buf.poisoned then { p with quarantine := p.quarantine ++ [buf] }
  else { p with available := p.available ++ [buf] }

/-- `BufferPool::clear_quarantine`. -/
def BufferPool.clear_quarantine (p : BufferPool) : BufferPool :=
  { p with available := p.available ++ p.quarantine.map OwnedBuf.reset, quarantine := [] }

/-! ## `client.rs`: `parse_results` -/

/-- `client::parse_results::<R>` with `size_of::<R>() = rsize`, returning
the parsed elements as byte chunks: `count = data.len() / rsize` elements
are reinterpreted, any trailing remainder bytes are not read. -/
def parse_results (data : List Nat) (rsize : Nat) : List (List Nat) :=
  (List.range (data.length / rsize)).map fun i => (data.drop (i * rsize)).take rsize

/-- The reply-parsing pipeline of `Client::create_accounts` after the body
bytes have been received: multi-batch decode with
`size_of::<CreateAccountsResult>() = 8`, then `parse_results`. -/
def create_accounts_parse (response : List Nat) : Option (List (List Nat)) :=
  (decode response 8).map fun payload => parse_results payload 8

/-! ## `lib.rs`: `id` -/

/-- `tb_rs::id`, as a function of the two effectful inputs: the clock value
`timestamp` (`as_nanos() as u64`, hence mod `2^64`) and the random draw
`random : u64`.  The source computes
`((timestamp as u128) << 64) | (random as u128)` and returns it directly. -/
def id_from (timestamp random : Nat) : Nat :=
  (timestamp % 2 ^ 64) <<< 64 ||| random % 2 ^ 64

/-! ## `protocol/operation.rs` -/

/-- `protocol::operation::Operation` (state-machine and VSR operations). -/
inductive Operation where
  | Reserved | Root | Register | Reconfigure | Pulse | Upgrade | Noop
  | CreateAccounts | CreateTransfers | LookupAccounts | LookupTransfers
  | GetAccountTransfers | GetAccountBalances | QueryAccounts | QueryTransfers
deriving DecidableEq, Repr

/-- The `repr(u8)` discriminants of `Operation`. -/
def Operation.toByte : Operation → Nat
  | .Reserved => 0 | .Root => 1 | .Register => 2 | .Reconfigure => 3
  | .Pulse => 4 | .Upgrade => 5 | .Noop => 6
  | .CreateAccounts => 138 | .CreateTransfers => 139
  | .LookupAccounts => 140 | .LookupTransfers => 141
  | .GetAccountTransfers => 142 | .GetAccountBalances => 143
  | .QueryAccounts => 144 | .QueryTransfers => 145

/-- `Operation::is_multi_batch`. -/
def Operation.is_multi_batch : Operation → Bool
  | .CreateAccounts | .CreateTransfers | .LookupAccounts | .LookupTransfers
  | .GetAccountTransfers | .GetAccountBalances | .QueryAccounts | .QueryTransfers => true
  | _ => false

/-! ## `protocol/header.rs` -/

/-- `protocol::header::EvictionReason`. -/
inductive EvictionReason where
  | NoSession | ClientReleaseTooLow | ClientReleaseTooHigh
  | InvalidRequestOperation | InvalidRequestBody | InvalidRequestBodySize
  | SessionTooLow | SessionReleaseMismatch
deriving DecidableEq, Repr

/-- `TryFrom<u8> for EvictionReason`: bytes `1..=8` map to the eight
reasons in order, everything else is `Err`. -/
def EvictionReason.try_from (value : Nat) : Option EvictionReason :=
  if value = 1 then some .NoSession
  else if value = 2 then some .ClientReleaseTooLow
  else if value = 3 then some .ClientReleaseTooHigh
  else if value = 4 then some .InvalidRequestOperation
  else if value = 5 then some .InvalidRequestBody
  else if value = 6 then some .InvalidRequestBodySize
  else if value = 7 then some .SessionTooLow
  else if value = 8 then some .SessionReleaseMismatch
  else none

/-- The client's mapping at `client.rs:567`:
`reason.try_into().unwrap_or(EvictionReason::NoSession)`. -/
def EvictionReason.from_byte_or_no_session (value : Nat) : EvictionReason :=
  (EvictionReason.try_from value).getD .NoSession

/-- `protocol::header::Header` (256 bytes, `repr(C)`, little-endian).
`reserved_command` is the raw 128-byte command overlay region. -/
structure Header where
  checksum : Nat
  checksum_padding : Nat
  checksum_body : Nat
  checksum_body_padding : Nat
  nonce_reserved : Nat
  cluster : Nat
  size : Nat
  epoch : Nat
  view : Nat
  release : Nat
  protocol : Nat
  command : Nat
  replica : Nat
  reserved_frame : List Nat
  reserved_command : List Nat
deriving DecidableEq, Repr

/-- `Header::default()`: zeros except `size = 256` (`protocol` and
`command = Reserved` are also zero). -/
def Header.default_header : Header :=
  { checksum := 0, checksum_padding := 0, checksum_body := 0,
    checksum_body_padding := 0, nonce_reserved := 0, cluster := 0,
    size := 256, epoch := 0, view := 0, release := 0, protocol := 0,
    command := 0, replica := 0,
    reserved_frame := List.replicate 12 0,
    reserved_command := List.replicate 128 0 }

/-- `Header::as_bytes` (the `repr(C)` byte layout, offsets 0..256). -/
def Header.as_bytes (h : Header) : List Nat :=
  le 16 h.checksum ++ le 16 h.checksum_padding ++ le 16 h.checksum_body ++
  le 16 h.checksum_body_padding ++ le 16 h.nonce_reserved ++ le 16 h.cluster ++
  le 4 h.size ++ le 4 h.epoch ++ le 4 h.view ++ le 4 h.release ++
  le 2 h.protocol ++ le 1 h.command ++ le 1 h.replica ++
  h.reserved_frame ++ h.reserved_command

/-- `Header::from_bytes` (reinterpret 256 bytes at the `repr(C)` offsets). -/
def Header.from_bytes (bytes : List Nat) : Header :=
  { checksum := readLE bytes 0 16, checksum_padding := readLE bytes 16 16,
    checksum_body := readLE bytes 32 16, checksum_body_padding := readLE bytes 48 16,
    nonce_reserved := readLE bytes 64 16, cluster := readLE bytes 80 16,
    size := readLE bytes 96 4, epoch := readLE bytes 100 4,
    view := readLE bytes 104 4, release := readLE bytes 108 4,
    protocol := readLE bytes 112 2, command := readLE bytes 114 1,
    replica := readLE bytes 115 1,
    reserved_frame := (bytes.drop 116).take 12,
    reserved_command := (bytes.drop 128).take 128 }

/-- `Header::valid_checksum`: the stored header checksum equals the MAC of
header bytes 16..256. -/
def Header.valid_checksum (chk : List Nat → Nat) (h : Header) : Bool :=
  h.checksum == chk (h.as_bytes.drop 16)

/-- `Header::valid_checksum_body`. -/
def Header.valid_checksum_body (chk : List Nat → Nat) (h : Header) (body : List Nat) : Bool :=
  h.checksum_body == chk body

/-- `RequestHeader.parent` (overlay offset 0, 16 bytes). -/
def Header.request_parent (h : Header) : Nat := readLE h.reserved_command 0 16

/-- `RequestHeader.client` (overlay offset 32, 16 bytes). -/
def Header.request_client (h : Header) : Nat := readLE h.reserved_command 32 16

/-- `RequestHeader.session` (overlay offset 48, 8 bytes). -/
def Header.request_session (h : Header) : Nat := readLE h.reserved_command 48 8

/-- `RequestHeader.request` (overlay offset 64, 4 bytes). -/
def Header.request_request (h : Header) : Nat := readLE h.reserved_command 64 4

/-- `RequestHeader.operation` (overlay offset 68, 1 byte). -/
def Header.request_operation (h : Header) : Nat := readLE h.reserved_command 68 1

/-- `ReplyHeader.request_checksum` (overlay offset 0, 16 bytes). -/
def Header.reply_request_checksum (h : Header) : Nat := readLE h.reserved_command 0 16

/-- `ReplyHeader.context` (overlay offset 32, 16 bytes). -/
def Header.reply_context (h : Header) : Nat := readLE h.reserved_command 32 16

/-- `ReplyHeader.client` (overlay offset 64, 16 bytes). -/
def Header.reply_client (h : Header) : Nat := readLE h.reserved_command 64 16

/-- `ReplyHeader.commit` (overlay offset 88, 8 bytes). -/
def Header.reply_commit (h : Header) : Nat := readLE h.reserved_command 88 8

/-- `EvictionHeader.reason` (overlay offset 127, 1 byte). -/
def Header.eviction_reason (h : Header) : Nat := readLE h.reserved_command 127 1

/-- `header.as_request_mut().parent = v`. -/
def Header.set_request_parent (h : Header) (v : Nat) : Header :=
  { h with reserved_command := writeLE h.reserved_command 0 16 v }

/-- `header.as_request_mut().client = v`. -/
def Header.set_request_client (h : Header) (v : Nat) : Header :=
  { h with reserved_command := writeLE h.reserved_command 32 16 v }

/-- `header.as_request_mut().session = v`. -/
def Header.set_request_session (h : Header) (v : Nat) : Header :=
  { h with reserved_command := writeLE h.reserved_command 48 8 v }

/-- `header.as_request_mut().request = v`. -/
def Header.set_request_request (h : Header) (v : Nat) : Header :=
  { h with reserved_command := writeLE h.reserved_command 64 4 v }

/-- `header.as_request_mut().set_operation(op)`. -/
def Header.set_request_operation (h : Header) (v : Nat) : Header :=
  { h with reserved_command := writeLE h.reserved_command 68 1 v }

/-! ## `protocol/message.rs` -/

/-- `protocol::message::Message`, split at the fixed 256-byte boundary
(the source stores `header ++ body` as one byte vector). -/
structure Message where
  header : Header
  body : List Nat
deriving DecidableEq, Repr

/-- `Message::as_bytes`. -/
def Message.as_bytes (m : Message) : List Nat := m.header.as_bytes ++ m.body

/-- `Message::set_body`: replace the body and refresh `size = len as u32`. -/
def Message.set_body (m : Message) (body : List Nat) : Message :=
  { header := { m.header with size := (256 + body.length) % U32 }, body := body }

/-- `Message::finalize`: body checksum first, then the header checksum over
the header bytes that already contain the body checksum. -/
def Message.finalize (chk : List Nat → Nat) (m : Message) : Message :=
  let h1 := { m.header with checksum_body := chk m.body }
  let h2 := { h1 with checksum := chk (h1.as_bytes.drop 16) }
  { m with header := h2 }

/-- `Message::from_bytes` (`None` when shorter than a header). -/
def Message.from_bytes (bytes : List Nat) : Option Message :=
  if bytes.length < 256 then none
  else some { header := Header.from_bytes (bytes.take 256), body := bytes.drop 256 }

/-- The `RequestBuilder` chain used by `Client::request` and
`Client::register`:
`RequestBuilder::new(cluster, client).session(s).request(r).parent(p)
 .operation(op).release(rel).view(v).body(b).build()`
(`Client::register` leaves `view` at its default `0`). -/
def build_request (chk : List Nat → Nat) (cluster client session request parent : Nat)
    (operation : Nat) (release view : Nat) (body : List Nat) : Message :=
  let h0 := { Header.default_header with cluster := cluster, command := 5 }
  let h0 := h0.set_request_client client
  let h := (((h0.set_request_session session).set_request_request request).set_request_parent
      parent).set_request_operation operation
  let h := { h with release := release, view := view }
  (Message.set_body { header := h, body := [] } body).finalize chk

/-! ## `client.rs`: session state machine -/

/-- `client::State`. -/
inductive ClientPhase where
  | Disconnected | Registering | Ready | Shutdown
deriving DecidableEq, Repr

/-- `Client::CLIENT_RELEASE`. -/
def CLIENT_RELEASE : Nat := 1

/-- The session-state fields of `client::Client` (the I/O driver, RNG and
timeout bookkeeping are not part of the session state; the receive buffer
pool is threaded separately as a `BufferPool`). -/
structure ClientState where
  id : Nat
  cluster : Nat
  replica_count : Nat
  phase : ClientPhase
  view : Nat
  session : Nat
  request_number : Nat
  parent : Nat
  batch_size_limit : Option Nat
  send_buffer : List Nat
deriving DecidableEq, Repr

/-- `client::ParseError`. -/
inductive ParseError where
  | NeedMoreData
  | WrongReply
  | Evicted (reason : EvictionReason)
  | Protocol (e : Nat)
deriving DecidableEq, Repr

/-- `error::ProtocolError` discriminants used below, numbered in
declaration order. -/
def ProtocolError.InvalidHeaderChecksum : Nat := 0
def ProtocolError.InvalidBodyChecksum : Nat := 1
def ProtocolError.InvalidHeader : Nat := 2
def ProtocolError.UnexpectedReply : Nat := 4
def ProtocolError.InvalidSize : Nat := 6

/-- `error::ClientError` (the deprecated `Transport` variant and the
`Connection` payload string are omitted). -/
inductive ClientError where
  | Connection
  | Protocol (e : Nat)
  | Evicted (reason : EvictionReason)
  | Timeout
  | NotRegistered
  | Shutdown
  | RequestTooLarge (size limit : Nat)
  | InvalidOperation
deriving DecidableEq, Repr

/-- `Client::try_parse_reply`.

One divergence from the source is deliberately conservative: for a reply
whose declared `size` field is below 256 the source's body slice
`&data[256..total_size]` panics, while this model yields the empty body
and proceeds; every theorem below about `try_parse_reply` concerns either
error paths reached before that slice or properties that also hold of the
panicking source. -/
def Client.try_parse_reply (chk : List Nat → Nat) (c : ClientState) (data : List Nat)
    (expected_checksum : Nat) : Except ParseError Message :=
  if data.length < 256 then .error .NeedMoreData
  else
    let header := Header.from_bytes (data.take 256)
    if ¬ header.valid_checksum chk then .error (.Protocol ProtocolError.InvalidHeaderChecksum)
    else if header.command ≠ 8 then
      (if header.command = 18 then
        .error (.Evicted (EvictionReason.from_byte_or_no_session header.eviction_reason))
      else .error (.Protocol ProtocolError.UnexpectedReply))
    else
      let total_size := header.size
      if data.length < total_size then .error .NeedMoreData
      else if header.reply_request_checksum ≠ expected_checksum then .error .WrongReply
      else if header.reply_client ≠ c.id then .error .WrongReply
      else
        let body_data := (data.take total_size).drop 256
        if ¬ header.valid_checksum_body chk body_data then
          .error (.Protocol ProtocolError.InvalidBodyChecksum)
        else
          match Message.from_bytes (data.take total_size) with
          | none => .error (.Protocol ProtocolError.InvalidHeader)
          | some msg => .ok msg

/-- `Client::wait_for_reply`, with the successive successful `recv` results
given as the list `incoming` (an exhausted list models the attempt's
timeout; `recv` I/O failures are not modelled).  Each iteration acquires a
pool buffer, fills it with the received bytes, parses, and releases the
buffer; `NeedMoreData` and `WrongReply` continue the loop. -/
def Client.wait_for_reply (chk : List Nat → Nat) (c : ClientState) (pool : BufferPool)
    (expected_checksum : Nat) : List (List Nat) → BufferPool × Except ClientError Message
  | [] => (pool, .error .Timeout)
  | data :: rest =>
    match pool.acquire with
    | none => (pool, .error .Connection)
    | some (buf, pool1) =>
      let buf := { buf with data := data, len := data.length }
      match Client.try_parse_reply chk c data expected_checksum with
      | .ok msg => (pool1.release buf, .ok msg)
      | .error .NeedMoreData => Client.wait_for_reply chk c (pool1.release buf) expected_checksum rest
      | .error .WrongReply => Client.wait_for_reply chk c (pool1.release buf) expected_checksum rest
      | .error (.Evicted reason) => (pool1.release buf, .error (.Evicted reason))
      | .error (.Protocol e) => (pool1.release buf, .error (.Protocol e))

/-- One attempt outcome of `Client::wait_for_reply` as seen by
`Client::send_request_with_retry`. -/
inductive WaitOutcome where
  | reply (m : Message)
  | timeout
  | failed (e : ClientError)
deriving DecidableEq, Repr

/-- `Client::send_request_with_retry`: each loop iteration sends
`msg.as_bytes()` (hedged: the same bytes go to the primary and possibly a
backup) and then waits; `Timeout` re-enters the loop, anything else exits.
The function returns the bytes sent by each attempt together with the
result; the schedule list supplies each attempt's wait outcome, and an
exhausted schedule stands for an attempt cut off while still pending. -/
def send_request_with_retry (msg : Message) : List WaitOutcome → List (List Nat) × Except ClientError Message
  | [] => ([], .error .Timeout)
  | outcome :: rest =>
    match outcome with
    | .reply m => ([msg.as_bytes], .ok m)
    | .failed e => ([msg.as_bytes], .error e)
    | .timeout =>
      let (sends, r) := send_request_with_retry msg rest
      (msg.as_bytes :: sends, r)

/-- The multi-batch framing step of `Client::request` (`client.rs:379-401`):
size check against `batch_size_limit`, then encoding into the send buffer.
Returns `(body_slice, new_send_buffer)`; the outer `Option` is `none` on
the source's panic paths (send-buffer slice out of range or an `encode`
assert). -/
def Client.request_frame (c : ClientState) (operation : Operation)
    (events_bytes : List Nat) (element_size : Nat) :
    Option (Except ClientError (List Nat × List Nat)) :=
  if operation.is_multi_batch then
    match trailer_total_size element_size 1 with
    | none => none
    | some trailer_size =>
      let total_size := (events_bytes.length % U32 + trailer_size) % U32
      let encoded_body : Option (Except ClientError (List Nat × List Nat)) :=
        if c.send_buffer.length < total_size then none
        else
          match encode (c.send_buffer.take total_size) events_bytes element_size with
          | none => none
          | some (encoded, encoded_size) =>
            let send_buffer := encoded ++ c.send_buffer.drop total_size
            some (.ok (send_buffer.take (encoded_size % U32), send_buffer))
      match c.batch_size_limit with
      | some limit =>
        if total_size > limit then some (.error (.RequestTooLarge total_size limit))
        else encoded_body
      | none => encoded_body
  else some (.ok (events_bytes, c.send_buffer))

/-- The pre-send half of `Client::request` (`client.rs:365-415`): state
check, multi-batch framing, request construction, and the pre-send
`parent`/`request_number` update. -/
def Client.request_build (chk : List Nat → Nat) (c : ClientState) (operation : Operation)
    (events_bytes : List Nat) (element_size : Nat) :
    Option (Except ClientError (ClientState × Message)) :=
  if c.phase ≠ .Ready then some (.error .NotRegistered)
  else
    match Client.request_frame c operation events_bytes element_size with
    | none => none
    | some (.error e) => some (.error e)
    | some (.ok (body_slice, send_buffer)) =>
      let msg := build_request chk c.cluster c.id c.session c.request_number c.parent
        operation.toByte CLIENT_RELEASE c.view body_slice
      some (.ok ({ c with send_buffer := send_buffer,
                          parent := msg.header.checksum,
                          request_number := (c.request_number + 1) % U32 }, msg))

/-- The post-reply half of `Client::request` (`client.rs:420-428`):
`parent ← reply.context`, `view ← reply.view` only if strictly greater,
and the reply body is returned. -/
def Client.request_complete (c : ClientState) (reply : Message) : ClientState × List Nat :=
  let c1 := { c with parent := reply.header.reply_context }
  let c2 := if reply.header.view > c1.view then { c1 with view := reply.header.view } else c1
  (c2, reply.body)

/-- The pre-send half of `Client::register` (`client.rs:316-341`): the
zero-filled 256-byte `RegisterRequest` body, the register request build
(`session = 0`, `request = 0`, `parent = 0`, `operation = Register`,
default `view = 0`), and `parent ← msg.checksum`. -/
def Client.register_build (chk : List Nat → Nat) (c : ClientState) :
    Except ClientError (ClientState × Message) :=
  if c.phase ≠ .Disconnected then .error .InvalidOperation
  else
    let c1 := { c with phase := ClientPhase.Registering }
    let body_bytes := List.replicate 256 0
    let msg := build_request chk c1.cluster c1.id 0 0 0 2 CLIENT_RELEASE 0 body_bytes
    .ok ({ c1 with parent := msg.header.checksum }, msg)

/-- The post-reply half of `Client::register` (`client.rs:347-361`). -/
def Client.register_complete (c : ClientState) (reply : Message) :
    Except ClientError ClientState :=
  if reply.body.length < 64 then .error (.Protocol ProtocolError.InvalidSize)
  else
    .ok { c with batch_size_limit := some (readLE reply.body 0 4),
                 session := reply.header.reply_commit,
                 parent := reply.header.reply_context,
                 request_number := 1,
                 phase := ClientPhase.Ready }

/-! ## Byte-level helper lemmas -/

theorem le_length (w v : Nat) : (le w v).length = w := by
  induction w generalizing v with
  | zero => rfl
  | succ w ih => simp [le, ih]

theorem bytesToNat_le (w v : Nat) : bytesToNat (le w v) = v % 2 ^ (8 * w) := by
  induction w generalizing v with
  | zero => simp [le, bytesToNat, Nat.mod_one]
  | succ w ih =>
    have h : 2 ^ (8 * (w + 1)) = 256 * 2 ^ (8 * w) := by ring
    rw [le, bytesToNat, ih, h, Nat.mod_mul]
    omega

theorem writeLE_length (buf : List Nat) (off w v : Nat) (h : off + w ≤ buf.length) :
    (writeLE buf off w v).length = buf.length := by
  simp only [writeLE, List.length_append, List.length_take, List.length_drop, le_length]
  omega

theorem readLE_writeLE_self (buf : List Nat) (off w v : Nat) (h : off + w ≤ buf.length) :
    readLE (writeLE buf off w v) off w = v % 2 ^ (8 * w) := by
  have hta : (buf.take off).length = off := by simp; omega
  rw [readLE, writeLE, List.append_assoc, List.drop_left' hta,
    List.take_left' (le_length w v), bytesToNat_le]

theorem readLE_writeLE_left (buf : List Nat) (off w v off2 w2 : Nat)
    (h : off2 + w2 ≤ off) (h2 : off ≤ buf.length) :
    readLE (writeLE buf off w v) off2 w2 = readLE buf off2 w2 := by
  have hta : (buf.take off).length = off := by simp; omega
  rw [readLE, writeLE, List.append_assoc, List.drop_append_eq_append_drop,
    List.take_append_of_le_length (by simp; omega), readLE, List.drop_take,
    List.take_take, Nat.min_eq_left (by omega)]

theorem readLE_writeLE_right (buf : List Nat) (off w v off2 w2 : Nat)
    (h : off + w ≤ off2) (h2 : off + w ≤ buf.length) :
    readLE (writeLE buf off w v) off2 w2 = readLE buf off2 w2 := by
  have hta : (buf.take off).length = off := by simp; omega
  have hidx : off + w + (off2 - (List.take off buf ++ le w v).length) = off2 := by
    simp only [List.length_append, le_length, List.length_take]
    omega
  rw [readLE, writeLE, List.drop_append_eq_append_drop, List.drop_append_eq_append_drop,
    List.drop_eq_nil_of_le (by omega), List.drop_eq_nil_of_le (by rw [le_length]; omega),
    List.nil_append, List.nil_append, List.drop_drop, hidx, readLE]

/-! ## Facts about `build_request` -/

theorem rc_write_parent (rc : List Nat) (client session request parent op : Nat)
    (hlen : rc.length = 128) :
    readLE (writeLE (writeLE (writeLE (writeLE (writeLE rc 32 16 client) 48 8 session)
        64 4 request) 0 16 parent) 68 1 op) 0 16 = parent % 2 ^ 128 := by
  have l1 : (writeLE rc 32 16 client).length = 128 := by
    rw [writeLE_length _ _ _ _ (by omega), hlen]
  have l2 : (writeLE (writeLE rc 32 16 client) 48 8 session).length = 128 := by
    rw [writeLE_length _ _ _ _ (by omega), l1]
  have l3 : (writeLE (writeLE (writeLE rc 32 16 client) 48 8 session) 64 4 request).length = 128 := by
    rw [writeLE_length _ _ _ _ (by omega), l2]
  have l4 : (writeLE (writeLE (writeLE (writeLE rc 32 16 client) 48 8 session) 64 4 request)
      0 16 parent).length = 128 := by
    rw [writeLE_length _ _ _ _ (by omega), l3]
  rw [readLE_writeLE_left _ _ _ _ _ _ (by omega) (by omega),
    readLE_writeLE_self _ _ _ _ (by omega)]

theorem rc_write_request (rc : List Nat) (client session request parent op : Nat)
    (hlen : rc.length = 128) :
    readLE (writeLE (writeLE (writeLE (writeLE (writeLE rc 32 16 client) 48 8 session)
        64 4 request) 0 16 parent) 68 1 op) 64 4 = request % 2 ^ 32 := by
  have l1 : (writeLE rc 32 16 client).length = 128 := by
    rw [writeLE_length _ _ _ _ (by omega), hlen]
  have l2 : (writeLE (writeLE rc 32 16 client) 48 8 session).length = 128 := by
    rw [writeLE_length _ _ _ _ (by omega), l1]
  have l3 : (writeLE (writeLE (writeLE rc 32 16 client) 48 8 session) 64 4 request).length = 128 := by
    rw [writeLE_length _ _ _ _ (by omega), l2]
  have l4 : (writeLE (writeLE (writeLE (writeLE rc 32 16 client) 48 8 session) 64 4 request)
      0 16 parent).length = 128 := by
    rw [writeLE_length _ _ _ _ (by omega), l3]
  rw [readLE_writeLE_left _ _ _ _ _ _ (by omega) (by omega),
    readLE_writeLE_right _ _ _ _ _ _ (by omega) (by omega),
    readLE_writeLE_self _ _ _ _ (by omega)]

theorem build_request_parent (chk : List Nat → Nat)
    (cluster client session request parent op rel v : Nat) (body : List Nat) :
    (build_request chk cluster client session request parent op rel v body).header.request_parent
      = parent % 2 ^ 128 := by
  have := rc_write_parent (List.replicate 128 0) client session request parent op (by simp)
  simpa [build_request, Message.finalize, Message.set_body, Header.request_parent,
    Header.set_request_client, Header.set_request_session, Header.set_request_request,
    Header.set_request_parent, Header.set_request_operation, Header.default_header] using this

theorem build_request_request (chk : List Nat → Nat)
    (cluster client session request parent op rel v : Nat) (body : List Nat) :
    (build_request chk cluster client session request parent op rel v body).header.request_request
      = request % 2 ^ 32 := by
  have := rc_write_request (List.replicate 128 0) client session request parent op (by simp)
  simpa [build_request, Message.finalize, Message.set_body, Header.request_request,
    Header.set_request_client, Header.set_request_session, Header.set_request_request,
    Header.set_request_parent, Header.set_request_operation, Header.default_header] using this

/-- Header bytes 16..256 do not depend on the `checksum` field, so the
checksum written by `finalize` is the MAC of the finalized header's own
bytes 16..256: every finalized message carries a valid header checksum. -/
theorem finalize_valid_checksum (chk : List Nat → Nat) (m : Message) :
    ((m.finalize chk).header.valid_checksum chk) = true := by
  simp only [Message.finalize, Header.valid_checksum, Header.as_bytes, List.append_assoc]
  rw [List.drop_left' (le_length _ _), List.drop_left' (le_length _ _)]
  exact beq_self_eq_true _

theorem build_request_valid_checksum (chk : List Nat → Nat)
    (cluster client session request parent op rel v : Nat) (body : List Nat) :
    ((build_request chk cluster client session request parent op rel v body).header.valid_checksum
      chk) = true :=
  finalize_valid_checksum chk _

/-- The successful result of `Client.request_build` is always the
pre-send `parent`/`request_number` update applied to the message built
from the old state. -/
theorem request_build_ok_shape (chk : List Nat → Nat) (c : ClientState) (op : Operation)
    (events_bytes : List Nat) (element_size : Nat) (r : ClientState × Message)
    (h : Client.request_build chk c op events_bytes element_size = some (.ok r)) :
    ∃ body_slice send_buffer,
      r.2 = build_request chk c.cluster c.id c.session c.request_number c.parent
              op.toByte CLIENT_RELEASE c.view body_slice ∧
      r.1 = { c with send_buffer := send_buffer,
                     parent := r.2.header.checksum,
                     request_number := (c.request_number + 1) % U32 } := by
  by_cases hp : c.phase ≠ ClientPhase.Ready
  · rw [Client.request_build, if_pos hp] at h
    simp at h
  · rw [Client.request_build, if_neg hp] at h
    rcases hF : Client.request_frame c op events_bytes element_size with _ | e | ⟨bs, sb⟩ <;>
      rw [hF] at h
    · simp at h
    · simp at h
    · simp only [Option.some.injEq, Except.ok.injEq] at h
      subst h
      exact ⟨bs, sb, rfl, rfl⟩

/-! ## Multi-batch codec lemmas -/

theorem le_div_mul (u es : Nat) (h : 0 < es) : u ≤ (u + es - 1) / es * es := by
  have h1 := Nat.div_add_mod (u + es - 1) es
  have h2 : (u + es - 1) % es < es := Nat.mod_lt _ h
  have h3 : (u + es - 1) / es * es = es * ((u + es - 1) / es) := Nat.mul_comm _ _
  omega

theorem trailer_total_size_ge (es bc t : Nat) (h : trailer_total_size es bc = some t)
    (hbc : 0 < bc) : bc * 2 + 2 ≤ t := by
  unfold trailer_total_size at h
  rw [if_neg (by omega)] at h
  by_cases hes : es = 0
  · rw [if_pos hes] at h
    have := Option.some.inj h
    omega
  · rw [if_neg hes] at h
    have h1 := Option.some.inj h
    have h2 := le_div_mul (bc * 2 + 2) es (by omega)
    omega

theorem encode_eq (buffer events : List Nat) (es t : Nat)
    (ht : trailer_total_size es 1 = some t)
    (hlt : events.length + t < U32)
    (hbuf : events.length + t ≤ buffer.length)
    (hblt : buffer.length < U32) :
    encode buffer events es =
      some (events ++ List.replicate (t - 4) 255 ++
              le 2 (if es = 0 then 0 else events.length / es % 2 ^ 16) ++ le 2 1 ++
              buffer.drop (events.length + t),
            events.length + t) := by
  have hev : events.length % U32 = events.length := Nat.mod_eq_of_lt (by omega)
  have hbl : buffer.length % U32 = buffer.length := Nat.mod_eq_of_lt hblt
  simp only [encode, ht, hev, hbl]
  rw [if_neg (by omega), if_neg (by omega), if_neg (by omega)]

theorem decode_of_encoded (events : List Nat) (es t ec : Nat)
    (ht : trailer_total_size es 1 = some t)
    (hlt : events.length + t < U32) :
    decode (events ++ List.replicate (t - 4) 255 ++ le 2 ec ++ le 2 1) es = some events := by
  have h4 : 4 ≤ t := trailer_total_size_ge es 1 t ht (by omega)
  have hA : (events ++ List.replicate (t - 4) 255 ++ le 2 ec).length = events.length + t - 2 := by
    simp [le_length]
    omega
  have hlen : (events ++ List.replicate (t - 4) 255 ++ le 2 ec ++ le 2 1).length
      = events.length + t := by
    simp [le_length]
    omega
  have hmod : (events.length + t) % U32 = events.length + t := Nat.mod_eq_of_lt hlt
  have hg2 : (events ++ List.replicate (t - 4) 255 ++ le 2 ec ++ le 2 1).getD
      (events.length + t - 2) 0 = 1 := by
    rw [List.getD_append_right _ _ _ _ (by rw [hA]), hA,
      show events.length + t - 2 - (events.length + t - 2) = 0 by omega]
    rfl
  have hg1 : (events ++ List.replicate (t - 4) 255 ++ le 2 ec ++ le 2 1).getD
      (events.length + t - 1) 0 = 0 := by
    rw [List.getD_append_right _ _ _ _ (by rw [hA]; omega), hA,
      show events.length + t - 1 - (events.length + t - 2) = 1 by omega]
    rfl
  simp only [decode, hlen, hmod]
  rw [if_neg (show ¬(events.length + t < 2) by omega)]
  rw [hg2, hg1]
  rw [if_neg (show ¬((1:Nat) % 256 + 256 * (0 % 256) = 0) by norm_num)]
  simp only [ht]
  rw [if_neg (show ¬(events.length + t < t) by omega)]
  rw [show events.length + t - t = events.length by omega]
  rw [List.append_assoc, List.append_assoc,
    List.take_append_of_le_length (by omega), List.take_length]

/-- `decode` is total: the `batch_count = 0` guard runs before
`trailer_total_size`, so the latter's assert cannot fire. -/
theorem decode_total (data : List Nat) (es : Nat) : (decode data es).isSome = true := by
  simp only [decode]
  split
  · rfl
  · split
    · rfl
    · rename_i h1 h2
      rcases htr : trailer_total_size es
          (data.getD (data.length % U32 - 2) 0 % 256 +
            256 * (data.getD (data.length % U32 - 1) 0 % 256)) with _ | t
      · exfalso
        rw [trailer_total_size, if_neg h2] at htr
        split at htr <;> simp at htr
      · simp only [htr]
        split <;> rfl

/-! ## C8: the id generator -/

theorem shiftLeft_lor_eq_add (a b : Nat) (h : b < 2 ^ 64) :
    a <<< 64 ||| b = a * 2 ^ 64 + b := by
  rw [Nat.shiftLeft_eq]
  apply Nat.eq_of_testBit_eq
  intro j
  rw [Nat.testBit_lor, show a * 2 ^ 64 + b = 2 ^ 64 * a + b by ring,
    Nat.testBit_mul_pow_two_add a h j, show a * 2 ^ 64 = 2 ^ 64 * a by ring,
    Nat.testBit_mul_pow_two]
  by_cases hj : j < 64
  · rw [if_pos hj]
    simp [Nat.not_le_of_lt hj]
  · rw [if_neg hj]
    have hb : b.testBit j = false :=
      Nat.testBit_lt_two_pow (lt_of_lt_of_le h (Nat.pow_le_pow_right (by omega) (by omega)))
    simp [Nat.le_of_not_lt hj, hb]

/-- C8 counterexample: `id()` performs no zero rejection — when the
(truncated) clock reading and the random draw are both zero, the returned
identifier is zero, contradicting the claim that the function rejects zero
and returns a non-zero identifier for every clock reading and random
draw. -/
theorem c8_counterexample : id_from 0 0 = 0 := rfl

/-- C8 (amended): `id()` returns `(unix_epoch_nanos_u64 << 64) | random_u64`
exactly as claimed, but performs no zero rejection: the result decomposes
into the clock in the high 64 bits and the random draw in the low 64 bits,
and it is zero precisely when both truncated inputs are zero. -/
theorem c8_id_layout (timestamp random : Nat) :
    id_from timestamp random / 2 ^ 64 = timestamp % 2 ^ 64 ∧
    id_from timestamp random % 2 ^ 64 = random % 2 ^ 64 ∧
    (id_from timestamp random = 0 ↔ timestamp % 2 ^ 64 = 0 ∧ random % 2 ^ 64 = 0) := by
  have h64 : (2:Nat) ^ 64 = 18446744073709551616 := by norm_num
  have hr : random % 2 ^ 64 < 2 ^ 64 := Nat.mod_lt _ (by norm_num)
  rw [id_from, shiftLeft_lor_eq_add _ _ hr]
  refine ⟨?_, ?_, ?_⟩ <;> rw [h64] at * <;> omega

/-- C8 witness: a concrete non-zero input gives the claimed layout. -/
theorem c8_witness :
    id_from 1700000000000000000 12345 / 2 ^ 64 = 1700000000000000000 ∧
    id_from 1700000000000000000 12345 % 2 ^ 64 = 12345 := by
  have h := c8_id_layout 1700000000000000000 12345
  exact ⟨by rw [h.1]; norm_num, by rw [h.2.1]; norm_num⟩

/-! ## C4: buffer-pool quarantine -/

/-- The poisoned buffer used in the C4 counterexample: capacity-1 contents
`[7]` so that it is distinguishable from any freshly allocated buffer. -/
def c4_poisoned : OwnedBuf := { data := [7], len := 1, poisoned := true }

/-- A pool with no available buffers whose quarantine holds the poisoned
buffer: `BufferPool::new(0, 1)` followed by `release` of a poisoned buffer. -/
def c4_pool : BufferPool := (BufferPool.new 0 1).release c4_poisoned

/-- C4 counterexample: with the available list exhausted and the quarantine
non-empty, `acquire` hands back the quarantined buffer (reset, but with its
contents `[7]` intact) instead of allocating a fresh buffer, and without any
`clear_quarantine` having been called — contradicting the claim that a
poisoned, released buffer is never handed out until the quarantine is
drained at session close. -/
theorem c4_counterexample :
    c4_pool.acquire =
      some ({ data := [7], len := 0, poisoned := false },
            { available := [], quarantine := [], buffer_size := 1 }) ∧
    ({ data := [7], len := 0, poisoned := false } : OwnedBuf) ≠ OwnedBuf.with_capacity 1 := by
  constructor
  · rfl
  · decide

/-- C4 (amended): `release` of a poisoned buffer quarantines it and
`acquire` prefers the available list, but once the available list is
exhausted `acquire` reuses the oldest quarantined buffer (after resetting
its length and poison flag); a fresh buffer is allocated only when the
available list and the quarantine are both empty. -/
theorem c4_quarantine_reuse (p : BufferPool) :
    (∀ bs buf, p.available = bs ++ [buf] →
        p.acquire = some (buf.reset, { p with available := bs })) ∧
    (∀ buf rest, p.available = [] → p.quarantine = buf :: rest →
        p.acquire = some (buf.reset, { p with quarantine := rest })) ∧
    (p.available = [] → p.quarantine = [] →
        p.acquire = some (OwnedBuf.with_capacity p.buffer_size, p)) ∧
    (∀ buf, buf.poisoned = true →
        p.release buf = { p with quarantine := p.quarantine ++ [buf] }) ∧
    (∀ buf, buf.poisoned = false →
        p.release buf = { p with available := p.available ++ [buf] }) := by
  refine ⟨?_, ?_, ?_, ?_, ?_⟩
  · intro bs buf hav
    rw [BufferPool.acquire, hav, List.getLast?_concat, List.dropLast_concat]
  · intro buf rest hav hq
    rw [BufferPool.acquire, hav, hq]
    rfl
  · intro hav hq
    rw [BufferPool.acquire, hav, hq]
    rfl
  · intro buf hp
    rw [BufferPool.release, if_pos hp]
  · intro buf hp
    rw [BufferPool.release, if_neg (by rw [hp]; exact Bool.false_ne_true)]

/-- C4 witness: a one-buffer pool serves the available buffer first, and a
non-poisoned release goes back to the available list. -/
theorem c4_witness :
    (BufferPool.new 1 4).available = [] ++ [OwnedBuf.with_capacity 4] ∧
    (BufferPool.new 1 4).acquire =
      some ((OwnedBuf.with_capacity 4).reset,
            { BufferPool.new 1 4 with available := [] }) := by
  have h := (c4_quarantine_reuse (BufferPool.new 1 4)).1 [] (OwnedBuf.with_capacity 4) (by rfl)
  exact ⟨rfl, h⟩

/-! ## C5: result-list parsing -/

/-- C5 counterexample: a well-formed reply whose decoded payload is 9 bytes
(one 8-byte `CreateAccountsResult` plus one partial trailing byte) yields a
silently truncated one-element result list instead of a protocol error. -/
theorem c5_counterexample :
    decode (List.replicate 9 42 ++ [255, 255, 255, 255, 1, 0, 1, 0]) 8
      = some (List.replicate 9 42) ∧
    (List.replicate 9 42).length % 8 ≠ 0 ∧
    create_accounts_parse (List.replicate 9 42 ++ [255, 255, 255, 255, 1, 0, 1, 0])
      = some [List.replicate 8 42] := by
  refine ⟨?_, by decide, ?_⟩ <;> rfl

/-- C5 (amended): result-list parsing strips the multi-batch trailer and
divides the remainder by the element size, but a trailing partial element
is silently discarded rather than surfacing a protocol error: the parsed
list has exactly `⌊len / size⌋` elements, appending a partial element to an
aligned payload leaves the parsed results unchanged, and the pipeline
(`decode` then `parse_results`) never produces an error. -/
theorem c5_truncating_parse (data tail : List Nat) (rsize : Nat)
    (hdata : data.length % rsize = 0) (htail : tail.length < rsize) :
    (parse_results data rsize).length = data.length / rsize ∧
    parse_results (data ++ tail) rsize = parse_results data rsize ∧
    (∀ response : List Nat, (create_accounts_parse response).isSome = true) := by
  have hrs : 0 < rsize := by omega
  obtain ⟨q, hq⟩ : ∃ q, data.length = rsize * q :=
    (Nat.dvd_of_mod_eq_zero hdata).elim fun q hq => ⟨q, hq⟩
  refine ⟨by simp [parse_results], ?_, ?_⟩
  · have hcount : (data.length + tail.length) / rsize = data.length / rsize := by
      rw [hq, Nat.mul_add_div hrs, Nat.mul_div_cancel_left _ hrs,
        Nat.div_eq_of_lt htail, Nat.add_zero]
    rw [parse_results, parse_results, List.length_append, hcount]
    apply List.map_congr_left
    intro i hi
    rw [List.mem_range, hq, Nat.mul_div_cancel_left _ hrs] at hi
    have hle : i * rsize + rsize ≤ data.length := by
      rw [hq]
      calc i * rsize + rsize = (i + 1) * rsize := by ring
        _ ≤ q * rsize := Nat.mul_le_mul_right _ (by omega)
        _ = rsize * q := by ring
    rw [List.drop_append_eq_append_drop, show i * rsize - data.length = 0 by omega,
      List.drop_zero, List.take_append_of_le_length (by simp; omega)]
  · intro response
    rw [create_accounts_parse]
    rcases h : decode response 8 with _ | payload
    · exact absurd (h ▸ decode_total response 8) (by simp)
    · simp

/-- C5 witness: two whole 8-byte elements plus one trailing byte parse to
the same two elements as the aligned payload alone. -/
theorem c5_witness :
    (parse_results (List.replicate 16 1) 8).length = 2 ∧
    parse_results (List.replicate 16 1 ++ [9]) 8 = parse_results (List.replicate 16 1) 8 := by
  have h := c5_truncating_parse (List.replicate 16 1) [9] 8 (by decide) (by decide)
  exact ⟨by rw [h.1]; rfl, h.2.1⟩

/-! ## C10: decode totality -/

/-- C10: `multi_batch::decode` is total on arbitrary input: it always
returns (the `trailer_total_size` assert is unreachable because the
`batch_count = 0` guard runs first, and no slice indexing can fail), and
it returns the empty payload when the input is shorter than 2 bytes, when
the trailing little-endian `u16` batch count is 0, and when the input is
shorter than the computed trailer size. -/
theorem c10_decode_total_empty (data : List Nat) (es : Nat) :
    (decode data es).isSome = true ∧
    (data.length % U32 < 2 → decode data es = some []) ∧
    (data.getD (data.length % U32 - 2) 0 % 256 +
        256 * (data.getD (data.length % U32 - 1) 0 % 256) = 0 →
      decode data es = some []) ∧
    (∀ t, trailer_total_size es
          (data.getD (data.length % U32 - 2) 0 % 256 +
            256 * (data.getD (data.length % U32 - 1) 0 % 256)) = some t →
        data.length % U32 < t → decode data es = some []) := by
  refine ⟨decode_total data es, ?_, ?_, ?_⟩
  · intro h1
    simp only [decode]
    rw [if_pos h1]
  · intro hbc
    simp only [decode]
    by_cases h1 : data.length % U32 < 2
    · rw [if_pos h1]
    · rw [if_neg h1, if_pos hbc]
  · intro t ht hlt
    simp only [decode]
    by_cases h1 : data.length % U32 < 2
    · rw [if_pos h1]
    · rw [if_neg h1]
      by_cases h2 : data.getD (data.length % U32 - 2) 0 % 256 +
          256 * (data.getD (data.length % U32 - 1) 0 % 256) = 0
      · rw [if_pos h2]
      · rw [if_neg h2]
        simp only [ht]
        rw [if_pos hlt]

/-- C10 witness: concrete instances of the three empty-result conditions
and of totality on a malformed buffer. -/
theorem c10_witness :
    (decode [7] 8).isSome = true ∧
    decode [7] 8 = some [] ∧
    decode [1, 2, 3, 0, 0] 8 = some [] ∧
    decode [255, 255, 1, 0] 128 = some [] := by
  refine ⟨(c10_decode_total_empty [7] 8).1,
    (c10_decode_total_empty [7] 8).2.1 (by decide),
    (c10_decode_total_empty [1, 2, 3, 0, 0] 8).2.2.1 (by decide),
    (c10_decode_total_empty [255, 255, 1, 0] 128).2.2.2 128 (by decide) (by decide)⟩

/-! ## C6: multi-batch round trip -/

/-- C6: for every element size in {8, 16, 64, 128} and every payload of
`count` whole elements with `count ∈ {0, 1, 2, 64, 8189}` (and a
destination buffer large enough), decoding the first
`encode(buffer, payload, element_size)` bytes of the encoded buffer
returns exactly the original payload. -/
theorem c6_multi_batch_roundtrip (buffer events : List Nat) (es count : Nat)
    (hes : es = 8 ∨ es = 16 ∨ es = 64 ∨ es = 128)
    (hcount : count = 0 ∨ count = 1 ∨ count = 2 ∨ count = 64 ∨ count = 8189)
    (hlen : events.length = count * es)
    (hbuf : events.length + es ≤ buffer.length)
    (hblt : buffer.length < U32)
    (out : List Nat) (sz : Nat)
    (henc : encode buffer events es = some (out, sz)) :
    sz = events.length + es ∧ decode (out.take sz) es = some events := by
  have ht : trailer_total_size es 1 = some es := by
    rcases hes with rfl | rfl | rfl | rfl <;> rfl
  have hlt : events.length + es < U32 := by
    have h1 : count ≤ 8189 := by rcases hcount with rfl | rfl | rfl | rfl | rfl <;> omega
    have h2 : es ≤ 128 := by rcases hes with rfl | rfl | rfl | rfl <;> omega
    have h3 : events.length ≤ 8189 * 128 := by
      rw [hlen]
      exact Nat.mul_le_mul h1 h2
    have hU : U32 = 4294967296 := rfl
    omega
  rw [encode_eq buffer events es es ht hlt hbuf hblt] at henc
  injection (Option.some.inj henc) with hout hsz
  subst hout hsz
  have h4 : 4 ≤ es := by rcases hes with rfl | rfl | rfl | rfl <;> omega
  refine ⟨rfl, ?_⟩
  rw [List.take_append_of_le_length (by simp [le_length]; omega)]
  rw [show events.length + es = (events ++ List.replicate (es - 4) 255 ++
      le 2 (if es = 0 then 0 else events.length / es % 2 ^ 16) ++ le 2 1).length by
    simp [le_length]; omega]
  rw [List.take_length]
  exact decode_of_encoded events es es _ ht hlt

/-- C6 witness: one element of size 8 round-trips through a 16-byte
buffer. -/
theorem c6_witness :
    encode (List.replicate 16 0) [1, 2, 3, 4, 5, 6, 7, 8] 8 =
      some ([1, 2, 3, 4, 5, 6, 7, 8, 255, 255, 255, 255, 1, 0, 1, 0], 16) ∧
    decode (([1, 2, 3, 4, 5, 6, 7, 8, 255, 255, 255, 255, 1, 0, 1, 0] : List Nat).take 16) 8 =
      some [1, 2, 3, 4, 5, 6, 7, 8] := by
  have h := c6_multi_batch_roundtrip (List.replicate 16 0) [1, 2, 3, 4, 5, 6, 7, 8] 8 1
    (by norm_num) (by norm_num) rfl (by simp) (by norm_num [U32])
    [1, 2, 3, 4, 5, 6, 7, 8, 255, 255, 255, 255, 1, 0, 1, 0] 16 rfl
  exact ⟨rfl, h.2⟩

/-! ## C9: eviction-reason mapping -/

/-- C9: a received message with a valid header checksum and
`command = Eviction` makes `try_parse_reply` return
`Evicted(reason.try_into().unwrap_or(NoSession))` for every reason byte,
and every byte outside `1..=8` (including 0) maps to `NoSession`, so an
unknown eviction reason code is indistinguishable from `NoSession`. -/
theorem c9_eviction_reason (chk : List Nat → Nat) (c : ClientState) (data : List Nat)
    (expected : Nat)
    (hlen : 256 ≤ data.length)
    (hvalid : (Header.from_bytes (data.take 256)).valid_checksum chk = true)
    (hcmd : (Header.from_bytes (data.take 256)).command = 18) :
    Client.try_parse_reply chk c data expected =
      .error (.Evicted (EvictionReason.from_byte_or_no_session
        (Header.from_bytes (data.take 256)).eviction_reason)) ∧
    (∀ b, b < 1 ∨ 8 < b → EvictionReason.from_byte_or_no_session b = .NoSession) := by
  constructor
  · rw [Client.try_parse_reply, if_neg (by omega)]
    rw [if_neg (by rw [hvalid]; simp)]
    rw [if_pos (by rw [hcmd]; decide)]
    rw [if_pos hcmd]
  · intro b hb
    rw [EvictionReason.from_byte_or_no_session, EvictionReason.try_from]
    split_ifs <;> first | rfl | omega

/-- The 256-byte eviction message used as the C9 witness: all zeros except
the command byte (offset 114) set to `Eviction = 18`; its reason byte is 0,
outside the defined range. -/
def c9_data : List Nat := List.replicate 114 0 ++ [18] ++ List.replicate 141 0

/-- The constant-zero tag function used to instantiate the abstract MAC in
witnesses: all checksum fields of an all-zero message validate against it. -/
def chk0 : List Nat → Nat := fun _ => 0

/-- C9 witness: the concrete eviction message with reason byte 0 is
surfaced as `Evicted(NoSession)`. -/
theorem c9_witness :
    Client.try_parse_reply chk0
        { id := 1, cluster := 0, replica_count := 1, phase := ClientPhase.Ready, view := 0,
          session := 0, request_number := 1, parent := 0, batch_size_limit := some 256,
          send_buffer := [] } c9_data 5 =
      .error (.Evicted .NoSession) ∧
    (Header.from_bytes (c9_data.take 256)).eviction_reason = 0 := by
  have h := c9_eviction_reason chk0
    { id := 1, cluster := 0, replica_count := 1, phase := ClientPhase.Ready, view := 0,
      session := 0, request_number := 1, parent := 0, batch_size_limit := some 256,
      send_buffer := [] } c9_data 5 (by decide) (by decide) (by decide)
  refine ⟨?_, by decide⟩
  rw [h.1]
  rfl

/-! ## C3: oversize rejection -/

/-- C3: a multi-batch operation in the `Ready` state whose event bytes plus
trailer exceed `batch_size_limit` fails with
`RequestTooLarge{size = len + trailer, limit}` before any message is built
or sent; since the error is returned by `request_build` before the
`parent`/`request_number`/`view` update, the session state is unchanged. -/
theorem c3_oversize_rejection (chk : List Nat → Nat) (c : ClientState) (op : Operation)
    (events_bytes : List Nat) (element_size t limit : Nat)
    (hready : c.phase = ClientPhase.Ready)
    (hmb : op.is_multi_batch = true)
    (hlimit : c.batch_size_limit = some limit)
    (ht : trailer_total_size element_size 1 = some t)
    (hlt : events_bytes.length + t < U32)
    (hover : limit < events_bytes.length + t) :
    Client.request_build chk c op events_bytes element_size =
      some (.error (.RequestTooLarge (events_bytes.length + t) limit)) := by
  have hmod : events_bytes.length % U32 = events_bytes.length := Nat.mod_eq_of_lt (by omega)
  have hmod2 : (events_bytes.length + t) % U32 = events_bytes.length + t :=
    Nat.mod_eq_of_lt hlt
  have hframe : Client.request_frame c op events_bytes element_size =
      some (.error (.RequestTooLarge (events_bytes.length + t) limit)) := by
    rw [Client.request_frame, if_pos hmb]
    simp only [ht, hlimit, hmod, hmod2]
    rw [if_pos hover]
  rw [Client.request_build, if_neg (by rw [hready]; simp), hframe]

/-- C3 witness: the claim's literal scenario — a 2-element account batch
(256 payload bytes, element size 128, trailer 128) against
`batch_size_limit = 256` fails with `RequestTooLarge{size = 384,
limit = 256}`. -/
theorem c3_witness :
    Client.request_build chk0
        { id := 1, cluster := 0, replica_count := 1, phase := ClientPhase.Ready, view := 0,
          session := 0, request_number := 1, parent := 0, batch_size_limit := some 256,
          send_buffer := List.replicate 1024 0 } Operation.CreateAccounts
        (List.replicate 256 7) 128 =
      some (.error (.RequestTooLarge 384 256)) := by
  have h := c3_oversize_rejection chk0
    { id := 1, cluster := 0, replica_count := 1, phase := ClientPhase.Ready, view := 0,
      session := 0, request_number := 1, parent := 0, batch_size_limit := some 256,
      send_buffer := List.replicate 1024 0 } Operation.CreateAccounts
    (List.replicate 256 7) 128 128 256 rfl rfl rfl rfl (by simp [U32]) (by simp)
  simpa using h

/-! ## C2: wrong-reply skip -/

/-- C2: a received message with a valid header checksum and
`command = Reply` whose `request_checksum` differs from the expected
checksum or whose `client` field differs from the session's client id is
classified `WrongReply`; `wait_for_reply` then releases the buffer and
continues the loop with the session state `c` unchanged (the state is
passed through untouched), and `try_parse_reply` accepts a reply only when
both fields match and the body checksum is valid. -/
theorem c2_wrong_reply_skip (chk : List Nat → Nat) (c : ClientState) (pool : BufferPool)
    (expected : Nat) (data : List Nat) (rest : List (List Nat))
    (hlen : 256 ≤ data.length)
    (hvalid : (Header.from_bytes (data.take 256)).valid_checksum chk = true)
    (hcmd : (Header.from_bytes (data.take 256)).command = 8)
    (hsize : (Header.from_bytes (data.take 256)).size ≤ data.length)
    (hmm : (Header.from_bytes (data.take 256)).reply_request_checksum ≠ expected ∨
           (Header.from_bytes (data.take 256)).reply_client ≠ c.id) :
    Client.try_parse_reply chk c data expected = .error .WrongReply ∧
    (∀ buf pool1, pool.acquire = some (buf, pool1) →
        Client.wait_for_reply chk c pool expected (data :: rest) =
          Client.wait_for_reply chk c
            (pool1.release { buf with data := data, len := data.length }) expected rest) ∧
    (∀ d2 msg, Client.try_parse_reply chk c d2 expected = .ok msg →
        (Header.from_bytes (d2.take 256)).reply_request_checksum = expected ∧
        (Header.from_bytes (d2.take 256)).reply_client = c.id ∧
        (Header.from_bytes (d2.take 256)).valid_checksum_body chk msg.body = true) := by
  have hwr : Client.try_parse_reply chk c data expected = .error .WrongReply := by
    rw [Client.try_parse_reply, if_neg (by omega), if_neg (by rw [hvalid]; simp),
      if_neg (by rw [hcmd]; simp), if_neg (by omega)]
    rcases hmm with hmm | hmm
    · rw [if_pos hmm]
    · by_cases h2 : (Header.from_bytes (data.take 256)).reply_request_checksum = expected
      · rw [if_neg (fun hne => hne h2), if_pos hmm]
      · rw [if_pos h2]
  refine ⟨hwr, ?_, ?_⟩
  · intro buf pool1 hacq
    simp only [Client.wait_for_reply, hacq, hwr]
  · intro d2 msg h
    simp only [Client.try_parse_reply] at h
    split_ifs at h with h1 h2 h3 h4 h5 h6 h7 h8
    · split at h
      · exact absurd h (by simp)
      · rename_i m hm
        rw [Message.from_bytes] at hm
        split_ifs at hm with h9
        · refine ⟨not_not.mp (by exact h6), not_not.mp (by exact h7), ?_⟩
          have hmsg := Except.ok.inj h
          have hbody : msg.body = (d2.take (Header.from_bytes (d2.take 256)).size).drop 256 := by
            rw [← hmsg]
            have := Option.some.inj hm
            rw [← this]
          rw [hbody]
          exact h8

/-- The 256-byte reply message used as the C2 witness: all zeros except the
command byte (offset 114) set to `Reply = 8`; its `request_checksum` and
`client` overlay fields are both 0. -/
def c2_data : List Nat := List.replicate 114 0 ++ [8] ++ List.replicate 141 0

/-- The client state used by the witnesses: `Ready`, client id 1, batch
size limit 256, an all-zero 1024-byte send buffer. -/
def wclient : ClientState :=
  { id := 1, cluster := 0, replica_count := 1, phase := ClientPhase.Ready, view := 0,
    session := 0, request_number := 1, parent := 0, batch_size_limit := some 256,
    send_buffer := List.replicate 1024 0 }

/-- C2 witness: the concrete mismatching reply (`request_checksum = 0`
against expected checksum 1, `client = 0` against id 1) is classified
`WrongReply`, and the wait loop continues on the remaining input with the
same session state. -/
theorem c2_witness :
    Client.try_parse_reply chk0 wclient c2_data 1 = .error .WrongReply ∧
    Client.wait_for_reply chk0 wclient (BufferPool.new 1 8) 1 [c2_data] =
      Client.wait_for_reply chk0 wclient
        (({ available := [], quarantine := [], buffer_size := 8 } : BufferPool).release
          { (OwnedBuf.with_capacity 8).reset with
              data := c2_data, len := c2_data.length }) 1 [] := by
  have h := c2_wrong_reply_skip chk0 wclient (BufferPool.new 1 8) 1 c2_data []
    (by decide) (by decide) (by decide) (by decide) (Or.inl (by decide))
  exact ⟨h.1, h.2.1 ((OwnedBuf.with_capacity 8).reset)
    { available := [], quarantine := [], buffer_size := 8 } rfl⟩

/-! ## C1: hash chain -/

/-- Every attempt of the retry loop sends exactly the bytes of the message
built before the loop was entered. -/
theorem send_request_with_retry_sends (msg : Message) (sched : List WaitOutcome) :
    ∀ b ∈ (send_request_with_retry msg sched).1, b = msg.as_bytes := by
  induction sched with
  | nil => simp [send_request_with_retry]
  | cons o rest ih =>
    cases o with
    | reply m => simp [send_request_with_retry]
    | failed e => simp [send_request_with_retry]
    | timeout =>
      simp only [send_request_with_retry]
      intro b hb
      rcases List.mem_cons.mp hb with rfl | hb2
      · rfl
      · exact ih b hb2

/-- C1: a successfully built request carries the session's current `parent`
in its Request overlay; the session's `parent` is advanced to the new
message's header checksum (itself the MAC of the message's header bytes)
already at build time, before any send; every retry re-sends the identical
message bytes without touching the session state; an accepted reply then
sets `parent` to the reply's `context`; and the register request is built
with `parent = 0`, after which `parent` is the register request's header
checksum. -/
theorem c1_hash_chain (chk : List Nat → Nat) (c : ClientState) (op : Operation)
    (events_bytes : List Nat) (element_size : Nat) (r : ClientState × Message)
    (hchk : ∀ l, chk l < 2 ^ 128)
    (hparent : c.parent < 2 ^ 128)
    (h : Client.request_build chk c op events_bytes element_size = some (.ok r)) :
    r.2.header.request_parent = c.parent ∧
    r.1.parent = r.2.header.checksum ∧
    r.1.parent < 2 ^ 128 ∧
    r.2.header.valid_checksum chk = true ∧
    (∀ sched, ∀ b ∈ (send_request_with_retry r.2 sched).1, b = r.2.as_bytes) ∧
    (∀ c2 reply, (Client.request_complete c2 reply).1.parent = reply.header.reply_context) ∧
    (∀ c3 r3, Client.register_build chk c3 = .ok r3 →
        r3.1.parent = r3.2.header.checksum ∧ r3.2.header.request_parent = 0) := by
  obtain ⟨bs, sb, h2, h1⟩ := request_build_ok_shape chk c op events_bytes element_size r h
  have hchksum : ∀ cluster client session request parent o rel v body,
      (build_request chk cluster client session request parent o rel v body).header.checksum =
        chk (((build_request chk cluster client session request parent o rel v
                body).header.as_bytes).drop 16) := by
    intro cluster client session request parent o rel v body
    have hv := build_request_valid_checksum chk cluster client session request parent o rel v body
    rw [Header.valid_checksum] at hv
    exact eq_of_beq hv
  refine ⟨?_, ?_, ?_, ?_, ?_, ?_, ?_⟩
  · rw [h2, build_request_parent, Nat.mod_eq_of_lt hparent]
  · rw [h1]
  · rw [h1]
    show r.2.header.checksum < 2 ^ 128
    rw [h2, hchksum]
    exact hchk _
  · rw [h2]
    exact build_request_valid_checksum chk _ _ _ _ _ _ _ _ _
  · intro sched
    exact send_request_with_retry_sends r.2 sched
  · intro c2 reply
    rw [Client.request_complete]
    split <;> rfl
  · intro c3 r3 hreg
    rw [Client.register_build] at hreg
    split_ifs at hreg
    have hr3 := (Except.ok.inj hreg).symm
    refine ⟨by rw [hr3], ?_⟩
    rw [hr3]
    show (build_request chk c3.cluster c3.id 0 0 0 2 CLIENT_RELEASE 0
        (List.replicate 256 0)).header.request_parent = 0
    rw [build_request_parent]
    exact Nat.zero_mod _

/-- The result of one concrete successful `request_build` (an empty
`CreateAccounts` batch against `wclient`), used by the C1 and C7
witnesses. -/
def wpair : ClientState × Message :=
  match Client.request_build chk0 wclient Operation.CreateAccounts [] 128 with
  | some (Except.ok p) => p
  | _ => (wclient, { header := Header.default_header, body := [] })

/-- C1 witness: the concrete build carries the session's `parent` in the
request overlay and advances the session `parent` to the message's own
header checksum. -/
theorem c1_witness :
    Client.request_build chk0 wclient Operation.CreateAccounts [] 128 = some (.ok wpair) ∧
    wpair.2.header.request_parent = wclient.parent ∧
    wpair.1.parent = wpair.2.header.checksum := by
  have h := c1_hash_chain chk0 wclient Operation.CreateAccounts [] 128 wpair
    (fun l => by norm_num [chk0]) (by norm_num [wclient]) rfl
  exact ⟨rfl, h.1, h.2.1⟩

/-! ## C7: session counter monotonicity -/

/-- C7: every successfully built request carries the current
`request_number` in its header, after which the session counter is
incremented by exactly one (as a `u32`); and an accepted reply never
decreases `view` — it overwrites `view` only when the reply's view is
strictly greater — and leaves `request_number` unchanged. -/
theorem c7_counter_monotonicity (chk : List Nat → Nat) (c : ClientState) (op : Operation)
    (events_bytes : List Nat) (element_size : Nat) (r : ClientState × Message)
    (h : Client.request_build chk c op events_bytes element_size = some (.ok r)) :
    r.2.header.request_request = c.request_number % 2 ^ 32 ∧
    r.1.request_number = (c.request_number + 1) % U32 ∧
    (c.request_number + 1 < U32 → r.1.request_number = c.request_number + 1) ∧
    r.1.view = c.view ∧
    (∀ c2 reply,
        c2.view ≤ (Client.request_complete c2 reply).1.view ∧
        (Client.request_complete c2 reply).1.request_number = c2.request_number ∧
        ((Client.request_complete c2 reply).1.view ≠ c2.view →
          c2.view < reply.header.view ∧
          (Client.request_complete c2 reply).1.view = reply.header.view)) := by
  obtain ⟨bs, sb, h2, h1⟩ := request_build_ok_shape chk c op events_bytes element_size r h
  refine ⟨?_, ?_, ?_, ?_, ?_⟩
  · rw [h2, build_request_request]
  · rw [h1]
  · intro hlt
    rw [h1]
    show (c.request_number + 1) % U32 = c.request_number + 1
    exact Nat.mod_eq_of_lt hlt
  · rw [h1]
  · intro c2 reply
    rw [Client.request_complete]
    split
    · rename_i hgt
      dsimp only at hgt ⊢
      exact ⟨by omega, rfl, fun _ => ⟨by omega, rfl⟩⟩
    · rename_i hle
      exact ⟨le_refl _, rfl, fun hne => absurd rfl hne⟩

/-- C7 witness: the concrete build carries `request_number = 1` in the
header and leaves the session at `request_number = 2`. -/
theorem c7_witness :
    Client.request_build chk0 wclient Operation.CreateAccounts [] 128 = some (.ok wpair) ∧
    wpair.1.request_number = wclient.request_number + 1 ∧
    wpair.2.header.request_request = wclient.request_number := by
  have h := c7_counter_monotonicity chk0 wclient Operation.CreateAccounts [] 128 wpair rfl
  refine ⟨rfl, h.2.2.1 (by norm_num [wclient, U32]), ?_⟩
  rw [h.1]
  norm_num [wclient]

end TB
